import Mathlib

/-!
Verification of the medallion ETL pipeline of the rental-market repository
(`run_etl_pipeline.py` and `lib/workspace/duckdb_store.py`).

Tables are embedded as Lean lists of rows.  A DuckDB `DATE` value is its
day number (days since 1970-01-01), which is the engine's own internal
representation; calendar attributes are recovered from the day number with
the standard civil-calendar conversion.  SQL `NULL` is `Option.none`, and
SQL equality in join conditions is null-rejecting (`NULL = x` never
matches), as in the engine.
-/

set_option linter.unusedVariables false

/-- A row of `silver.rent_contracts` as produced by
`silver_clean_rent_contracts` (duckdb_store.py lines 164-239): the CAST
columns are `Option Int` (a BIGINT or NULL), text columns `Option String`,
date columns `Option Int` (day numbers), and the two quality flags are
booleans (the SQL `CASE` always yields TRUE or FALSE).  The audit columns
`_ingestion_timestamp`, `_source_file` and `_cleaned_timestamp` are carried
as `Option String` (leading underscores dropped from the Lean field names). -/
structure SilverRow where
  contract_id : Option Int
  contract_reg_type_id : Option Int
  contract_reg_type_ar : Option String
  contract_reg_type_en : Option String
  contract_start_date : Option Int
  contract_end_date : Option Int
  contract_amount : Option Int
  annual_amount : Option Int
  no_of_prop : Option Int
  line_number : Option Int
  is_free_hold : Option Int
  ejari_bus_property_type_id : Option Int
  ejari_bus_property_type_ar : Option String
  ejari_bus_property_type_en : Option String
  ejari_property_type_id : Option Int
  ejari_property_type_en : Option String
  ejari_property_type_ar : Option String
  ejari_property_sub_type_id : Option Int
  ejari_property_sub_type_en : Option String
  ejari_property_sub_type_ar : Option String
  property_usage_en : Option String
  property_usage_ar : Option String
  project_number : Option Int
  project_name_ar : Option String
  project_name_en : Option String
  master_project_ar : Option String
  master_project_en : Option String
  area_id : Option Int
  area_name_ar : Option String
  area_name_en : Option String
  actual_area : Option Int
  nearest_landmark_ar : Option String
  nearest_landmark_en : Option String
  nearest_metro_ar : Option String
  nearest_metro_en : Option String
  nearest_mall_ar : Option String
  nearest_mall_en : Option String
  tenant_type_id : Option Int
  tenant_type_ar : Option String
  tenant_type_en : Option String
  ingestion_timestamp : Option String
  source_file : Option String
  cleaned_timestamp : Option String
  has_date_issues : Bool
  has_amount_issues : Bool
deriving DecidableEq

/-- A silver row with every nullable column NULL and the quality flags as
the cleaning SQL would set them for such a row (both dates NULL means
`_has_date_issues = TRUE`, NULL amount means `_has_amount_issues = TRUE`). -/
def blankRow : SilverRow where
  contract_id := none
  contract_reg_type_id := none
  contract_reg_type_ar := none
  contract_reg_type_en := none
  contract_start_date := none
  contract_end_date := none
  contract_amount := none
  annual_amount := none
  no_of_prop := none
  line_number := none
  is_free_hold := none
  ejari_bus_property_type_id := none
  ejari_bus_property_type_ar := none
  ejari_bus_property_type_en := none
  ejari_property_type_id := none
  ejari_property_type_en := none
  ejari_property_type_ar := none
  ejari_property_sub_type_id := none
  ejari_property_sub_type_en := none
  ejari_property_sub_type_ar := none
  property_usage_en := none
  property_usage_ar := none
  project_number := none
  project_name_ar := none
  project_name_en := none
  master_project_ar := none
  master_project_en := none
  area_id := none
  area_name_ar := none
  area_name_en := none
  actual_area := none
  nearest_landmark_ar := none
  nearest_landmark_en := none
  nearest_metro_ar := none
  nearest_metro_en := none
  nearest_mall_ar := none
  nearest_mall_en := none
  tenant_type_id := none
  tenant_type_ar := none
  tenant_type_en := none
  ingestion_timestamp := none
  source_file := none
  cleaned_timestamp := none
  has_date_issues := true
  has_amount_issues := true

/-- SQL equality used in the fact table's join conditions: `NULL = x` and
`x = NULL` are not true, so a NULL key never matches a dimension row. -/
def sqlEq (a b : Option Int) : Bool :=
  match a, b with
  | some x, some y => x == y
  | _, _ => false

/-- SQL `ORDER BY ... ASC` comparison on a nullable integer column; DuckDB
places NULLs last for an ascending sort. -/
def sqlLe (a b : Option Int) : Bool :=
  match a, b with
  | some x, some y => decide (x ≤ y)
  | some _, none => true
  | none, some _ => false
  | none, none => true

/-- Dimension-table construction shared by the five attribute dimensions
(duckdb_store.py `_gold_create_dim_contract_type` .. `_gold_create_dim_tenant`):
`SELECT ROW_NUMBER() OVER (ORDER BY key), cols FROM (SELECT DISTINCT cols
FROM silver.rent_contracts WHERE keep)`.  `keep` is the dimension's WHERE
filter, `proj` its projected column tuple, `le` the ORDER BY comparison
(ties among equal keys are broken arbitrarily by the engine; a stable sort
realizes one such order).  Surrogate keys come from `ROW_NUMBER`, i.e.
1-based enumeration.  The constant `_created_at` audit column is the same
(non-interpolated, see `silver_cleaned_timestamp` below) string literal on
every row and is not carried in the embedding. -/
def buildDim {β : Type} [DecidableEq β] (keep : SilverRow → Bool)
    (proj : SilverRow → β) (le : β → β → Bool) (rows : List SilverRow) :
    List (Nat × β) :=
  List.enumFrom 1
    (((rows.filter keep).map proj).dedup.insertionSort (fun a b => le a b = true))

/-- Columns of `gold.dim_contract_type` besides the surrogate key.  The
inner `SELECT DISTINCT` of `_gold_create_dim_contract_type` (lines 361-369)
includes `contract_id`, so the distinct tuples are per-contract, not
per-contract-type. -/
structure DimContractTypeTuple where
  contract_reg_type_id : Option Int
  contract_id : Option Int
  contract_reg_type_en : Option String
  contract_reg_type_ar : Option String
deriving DecidableEq

/-- `_gold_create_dim_contract_type` (duckdb_store.py lines 350-371):
distinct (reg type id, contract id, labels) tuples of rows whose
`contract_reg_type_id` is not NULL, numbered in `ORDER BY
contract_reg_type_id` order. -/
def dim_contract_type (silver : List SilverRow) : List (Nat × DimContractTypeTuple) :=
  buildDim (fun r => r.contract_reg_type_id.isSome)
    (fun r => ⟨r.contract_reg_type_id, r.contract_id,
               r.contract_reg_type_en, r.contract_reg_type_ar⟩)
    (fun a b => sqlLe a.contract_reg_type_id b.contract_reg_type_id) silver

/-- Columns of `gold.dim_property` besides the surrogate key. -/
structure DimPropertyTuple where
  ejari_bus_property_type_id : Option Int
  ejari_property_type_id : Option Int
  ejari_bus_property_type_en : Option String
  ejari_bus_property_type_ar : Option String
  ejari_property_type_en : Option String
  ejari_property_type_ar : Option String
  ejari_property_sub_type_en : Option String
  ejari_property_sub_type_ar : Option String
  property_usage_en : Option String
  property_usage_ar : Option String
deriving DecidableEq

/-- ORDER BY `ejari_bus_property_type_id, ejari_property_type_id`. -/
def dimPropertyLe (a b : DimPropertyTuple) : Bool :=
  if a.ejari_bus_property_type_id = b.ejari_bus_property_type_id then
    sqlLe a.ejari_property_type_id b.ejari_property_type_id
  else
    sqlLe a.ejari_bus_property_type_id b.ejari_bus_property_type_id

/-- `_gold_create_dim_property` (duckdb_store.py lines 373-407): distinct
tuples of ten property columns for rows with non-NULL
`ejari_bus_property_type_id`. -/
def dim_property (silver : List SilverRow) : List (Nat × DimPropertyTuple) :=
  buildDim (fun r => r.ejari_bus_property_type_id.isSome)
    (fun r => ⟨r.ejari_bus_property_type_id, r.ejari_property_type_id,
               r.ejari_bus_property_type_en, r.ejari_bus_property_type_ar,
               r.ejari_property_type_en, r.ejari_property_type_ar,
               r.ejari_property_sub_type_en, r.ejari_property_sub_type_ar,
               r.property_usage_en, r.property_usage_ar⟩)
    dimPropertyLe silver

/-- Columns of `gold.dim_project` besides the surrogate key. -/
structure DimProjectTuple where
  project_number : Option Int
  project_name_ar : Option String
  project_name_en : Option String
  master_project_ar : Option String
  master_project_en : Option String
deriving DecidableEq

/-- `_gold_create_dim_project` (duckdb_store.py lines 409-432). -/
def dim_project (silver : List SilverRow) : List (Nat × DimProjectTuple) :=
  buildDim (fun r => r.project_number.isSome)
    (fun r => ⟨r.project_number, r.project_name_ar, r.project_name_en,
               r.master_project_ar, r.master_project_en⟩)
    (fun a b => sqlLe a.project_number b.project_number) silver

/-- Columns of `gold.dim_location` besides the surrogate key. -/
structure DimLocationTuple where
  area_id : Option Int
  area_name_en : Option String
  area_name_ar : Option String
  actual_area : Option Int
  nearest_landmark_en : Option String
  nearest_metro_en : Option String
  nearest_mall_en : Option String
  nearest_landmark_ar : Option String
  nearest_metro_ar : Option String
  nearest_mall_ar : Option String
deriving DecidableEq

/-- `_gold_create_dim_location` (duckdb_store.py lines 434-466).  Unlike
the other four attribute dimensions, its inner `SELECT DISTINCT` has no
`WHERE area_id IS NOT NULL` clause, so the keep predicate is constantly
true and tuples with a NULL `area_id` are retained. -/
def dim_location (silver : List SilverRow) : List (Nat × DimLocationTuple) :=
  buildDim (fun _ => true)
    (fun r => ⟨r.area_id, r.area_name_en, r.area_name_ar, r.actual_area,
               r.nearest_landmark_en, r.nearest_metro_en, r.nearest_mall_en,
               r.nearest_landmark_ar, r.nearest_metro_ar, r.nearest_mall_ar⟩)
    (fun a b => sqlLe a.area_id b.area_id) silver

/-- Columns of `gold.dim_tenant` besides the surrogate key. -/
structure DimTenantTuple where
  tenant_type_id : Option Int
  tenant_type_en : Option String
  tenant_type_ar : Option String
deriving DecidableEq

/-- `_gold_create_dim_tenant` (duckdb_store.py lines 468-487). -/
def dim_tenant (silver : List SilverRow) : List (Nat × DimTenantTuple) :=
  buildDim (fun r => r.tenant_type_id.isSome)
    (fun r => ⟨r.tenant_type_id, r.tenant_type_en, r.tenant_type_ar⟩)
    (fun a b => sqlLe a.tenant_type_id b.tenant_type_id) silver

/-- A calendar date, used to spell out the calendar attributes that the
gold SQL derives from a `DATE` value. -/
structure CivilDate where
  year : Int
  month : Int
  day : Int
deriving DecidableEq

/-- Civil calendar date of a day number (days since 1970-01-01), the
standard proleptic-Gregorian conversion used by the engine's date type
(floor divisions throughout). -/
def civilFromDays (z0 : Int) : CivilDate :=
  let z := z0 + 719468
  let era := Int.fdiv z 146097
  let doe := z - era * 146097
  let yoe := Int.fdiv (doe - Int.fdiv doe 1460 + Int.fdiv doe 36524 - Int.fdiv doe 146096) 365
  let doy := doe - (365 * yoe + Int.fdiv yoe 4 - Int.fdiv yoe 100)
  let mp := Int.fdiv (5 * doy + 2) 153
  let d := doy - Int.fdiv (153 * mp + 2) 5 + 1
  let m := mp + (if mp < 10 then 3 else -9)
  ⟨yoe + era * 400 + (if m ≤ 2 then 1 else 0), m, d⟩

/-- `CAST(strftime('%Y%m%d', date) AS INTEGER)`: the date as a YYYYMMDD
integer. -/
def dateKeyOfDays (z : Int) : Int :=
  let c := civilFromDays z
  c.year * 10000 + c.month * 100 + c.day

/-- `EXTRACT(DOW FROM date)`: 0 = Sunday .. 6 = Saturday (1970-01-01 was a
Thursday, DOW 4). -/
def dowOfDays (z : Int) : Int := Int.emod (z + 4) 7

/-- `strftime('%B', date)`: full English month name. -/
def monthName (m : Int) : String :=
  if m = 1 then "January" else if m = 2 then "February"
  else if m = 3 then "March" else if m = 4 then "April"
  else if m = 5 then "May" else if m = 6 then "June"
  else if m = 7 then "July" else if m = 8 then "August"
  else if m = 9 then "September" else if m = 10 then "October"
  else if m = 11 then "November" else "December"

/-- A row of `gold.dim_date` (duckdb_store.py lines 333-346). -/
structure DimDateRow where
  date_key : Int
  full_date : Int
  year : Int
  month : Int
  day_of_month : Int
  quarter : Int
  day_of_week : Int
  month_name : String
  is_weekend : Bool
deriving DecidableEq

/-- The `dim_date` row derived from one calendar day `z` (a day number):
`date_key` is the YYYYMMDD integer, `day_of_week` is `EXTRACT(DOW) + 1`,
and `is_weekend` holds when `day_of_week IN (1, 7)`. -/
def mkDimDateRow (z : Int) : DimDateRow :=
  let c := civilFromDays z
  let dw := dowOfDays z + 1
  { date_key := dateKeyOfDays z
    full_date := z
    year := c.year
    month := c.month
    day_of_month := c.day
    quarter := Int.fdiv (c.month - 1) 3 + 1
    day_of_week := dw
    month_name := monthName c.month
    is_weekend := dw = 1 ∨ dw = 7 }

/-- `MIN(contract_start_date)` over the silver rows whose two contract
dates are both non-NULL (the `WHERE` of the `date_range` CTE,
duckdb_store.py lines 317-324). -/
def minStartDate (silver : List SilverRow) : Option Int :=
  (silver.filterMap fun r =>
    match r.contract_start_date, r.contract_end_date with
    | some s, some _ => some s
    | _, _ => none).min?

/-- `MAX(contract_end_date)` over the same filtered rows. -/
def maxEndDate (silver : List SilverRow) : Option Int :=
  (silver.filterMap fun r =>
    match r.contract_start_date, r.contract_end_date with
    | some _, some e => some e
    | _, _ => none).max?

/-- `_gold_create_dim_date` (duckdb_store.py lines 313-348): one row per
`min_date + n` day for `n` in `generate_series(0, max_date - min_date)`.
DuckDB's `generate_series` is inclusive of its stop value and empty when
the stop is negative, hence `(max - min + 1).toNat` generated days.  With
no qualifying silver row the aggregates are NULL and the calendar is
empty. -/
def dim_date (silver : List SilverRow) : List DimDateRow :=
  match minStartDate silver, maxEndDate silver with
  | some mn, some mx =>
      (List.range (mx - mn + 1).toNat).map fun n : Nat => mkDimDateRow (mn + (n : Int))
  | _, _ => []

/-- Whole-month span between two dates.  Modelled from the spec: "Compute
`duration_months` as the whole-month span between the two dates when both
are present" — the number of complete calendar months from `s` to `e`
(12 per full year, one fewer while the day of month has not been
reached). -/
def specWholeMonthSpan (s e : CivilDate) : Int :=
  12 * (e.year - s.year) + (e.month - s.month) - (if e.day < s.day then 1 else 0)

/-- `EXTRACT(MONTH FROM AGE(e, s))` for `e` at or after `s`: `AGE` yields a
symbolic interval whose whole-month count is normalized into years plus a
months field in `0..11`, and `EXTRACT(MONTH ...)` returns only that months
field — i.e. the whole-month span reduced modulo 12. -/
def ageExtractMonth (s e : CivilDate) : Int :=
  Int.emod (specWholeMonthSpan s e) 12

/-- The fact table's `contract_duration_months` measure (duckdb_store.py
lines 511-516): `EXTRACT(MONTH FROM AGE(end, start))` when both dates are
non-NULL, else NULL. -/
def contractDurationMonths (s e : Option Int) : Option Int :=
  match s, e with
  | some sd, some ed => some (ageExtractMonth (civilFromDays sd) (civilFromDays ed))
  | _, _ => none

/-- One `LEFT JOIN` against a dimension, from the side of a single silver
row: the list of surrogate-key values the join contributes for that row —
one per matching dimension row, or a single NULL when nothing matches. -/
def leftKeys {T : Type} (dim : List (Nat × T)) (pred : T → Bool) :
    List (Option Nat) :=
  if (dim.filter fun d => pred d.2).isEmpty then [none]
  else (dim.filter fun d => pred d.2).map fun d => some d.1

/-- Keys contributed by `LEFT JOIN gold.dim_contract_type dct ON
rc.contract_reg_type_id = dct.contract_reg_type_id`. -/
def contractTypeKeysFor (silver : List SilverRow) (rc : SilverRow) :
    List (Option Nat) :=
  leftKeys (dim_contract_type silver) fun t =>
    sqlEq rc.contract_reg_type_id t.contract_reg_type_id

/-- Keys contributed by `LEFT JOIN gold.dim_project dprj ON
rc.project_number = dprj.project_number`. -/
def projectKeysFor (silver : List SilverRow) (rc : SilverRow) :
    List (Option Nat) :=
  leftKeys (dim_project silver) fun t => sqlEq rc.project_number t.project_number

/-- Keys contributed by `LEFT JOIN gold.dim_property dp` on the
two-column condition `rc.ejari_bus_property_type_id =
dp.ejari_bus_property_type_id AND rc.ejari_property_type_id =
dp.ejari_property_type_id`. -/
def propertyKeysFor (silver : List SilverRow) (rc : SilverRow) :
    List (Option Nat) :=
  leftKeys (dim_property silver) fun t =>
    sqlEq rc.ejari_bus_property_type_id t.ejari_bus_property_type_id &&
    sqlEq rc.ejari_property_type_id t.ejari_property_type_id

/-- Keys contributed by `LEFT JOIN gold.dim_location dl ON rc.area_id =
dl.area_id`. -/
def locationKeysFor (silver : List SilverRow) (rc : SilverRow) :
    List (Option Nat) :=
  leftKeys (dim_location silver) fun t => sqlEq rc.area_id t.area_id

/-- Keys contributed by `LEFT JOIN gold.dim_tenant dt ON
rc.tenant_type_id = dt.tenant_type_id`. -/
def tenantKeysFor (silver : List SilverRow) (rc : SilverRow) :
    List (Option Nat) :=
  leftKeys (dim_tenant silver) fun t => sqlEq rc.tenant_type_id t.tenant_type_id

/-- Columns of `gold.fact_rent_contract` besides `rent_contract_key`
(duckdb_store.py lines 493-521). -/
structure FactBody where
  contract_type_key : Option Nat
  property_key : Option Nat
  project_key : Option Nat
  location_key : Option Nat
  tenant_key : Option Nat
  start_date_key : Option Int
  end_date_key : Option Int
  contract_start_date : Option Int
  contract_end_date : Option Int
  annual_amount : Option Int
  contract_amount : Option Int
  no_of_prop : Option Int
  line_number : Option Int
  is_free_hold : Option Int
  contract_duration_months : Option Int
  cleaned_timestamp : Option String
  has_date_issues : Bool
  has_amount_issues : Bool
deriving DecidableEq

/-- `_gold_create_fact_table` (duckdb_store.py lines 489-536): silver
left-joined against the five attribute dimensions in the order of the
`FROM` clause (contract type, project, property, location, tenant).  Each
join multiplies the row by its matching dimension rows (or keeps it once
with a NULL key).  `ROW_NUMBER() OVER ()` — rows numbered from 1 in an
arbitrary engine order; the nested expansion order below realizes one such
order. -/
def fact_rent_contract (silver : List SilverRow) : List (Nat × FactBody) :=
  List.enumFrom 1 <| silver.flatMap fun rc =>
    (contractTypeKeysFor silver rc).flatMap fun ctk =>
      (projectKeysFor silver rc).flatMap fun pjk =>
        (propertyKeysFor silver rc).flatMap fun ppk =>
          (locationKeysFor silver rc).flatMap fun lck =>
            (tenantKeysFor silver rc).map fun tnk =>
              { contract_type_key := ctk
                property_key := ppk
                project_key := pjk
                location_key := lck
                tenant_key := tnk
                start_date_key := rc.contract_start_date.map dateKeyOfDays
                end_date_key := rc.contract_end_date.map dateKeyOfDays
                contract_start_date := rc.contract_start_date
                contract_end_date := rc.contract_end_date
                annual_amount := rc.annual_amount
                contract_amount := rc.contract_amount
                no_of_prop := rc.no_of_prop
                line_number := rc.line_number
                is_free_hold := rc.is_free_hold
                contract_duration_months :=
                  contractDurationMonths rc.contract_start_date rc.contract_end_date
                cleaned_timestamp := rc.cleaned_timestamp
                has_date_issues := rc.has_date_issues
                has_amount_issues := rc.has_amount_issues }

/-- The value stored in the `_cleaned_timestamp` column by
`silver_clean_rent_contracts` (duckdb_store.py line 222).  The SQL there is
a plain (non-f) Python triple-quoted string, so the text between the braces
is never interpolated: the column holds the literal characters
`\x7bdatetime.now().isoformat()\x7d` for every row, whatever the wall-clock
time `now` of the cleaning pass is.  (`bronze_ingest_csv`, lines 121-133,
uses f-strings, where the same placeholder is interpolated.) -/
def silver_cleaned_timestamp (now : String) : String :=
  "\x7bdatetime.now().isoformat()\x7d"

/-- The methods defined on class `DuckDBStore` (duckdb_store.py), by their
Python names.  The only Parquet export the class defines is
`export_silver_to_parquet`. -/
def duckDBStoreMethods : List String :=
  ["__init__", "_connect", "_create_schemas", "close", "__enter__", "__exit__",
   "bronze_ingest_csv", "silver_clean_rent_contracts",
   "gold_create_star_schema", "_gold_create_dim_date",
   "_gold_create_dim_contract_type", "_gold_create_dim_property",
   "_gold_create_dim_project", "_gold_create_dim_location",
   "_gold_create_dim_tenant", "_gold_create_fact_table",
   "_gold_create_indexes", "export_silver_to_parquet",
   "create_expiring_view", "get_row_count", "get_schema", "table_exists",
   "list_tables", "execute", "get_medallion_summary"]

/-- The statements of `medallion_pipeline` (run_etl_pipeline.py lines
86-154) that touch the store, in program order. -/
inductive MedallionStep where
  | openStore
  | bronzeIngestCsv
  | exportToParquetBronze
  | dropBronzeSchema
  | silverCleanRentContracts
  | exportToParquetSilver
  | dropSilverSchema
  | goldCreateStarSchema
  | createExpiringView
  | getMedallionSummary
deriving DecidableEq, BEq

/-- Program order of `medallion_pipeline`'s store operations: ingest the
CSV into bronze, call `store.export_to_parquet` (line 98), drop the bronze
schema (line 102), clean into silver, call `store.export_to_parquet` again
(line 115), drop the silver schema with `DROP SCHEMA IF EXISTS silver
CASCADE` (line 119), build the gold star schema (line 127, which reads
`silver.rent_contracts`), create the expiring view, and summarize. -/
def medallionSteps : List MedallionStep :=
  [.openStore, .bronzeIngestCsv, .exportToParquetBronze, .dropBronzeSchema,
   .silverCleanRentContracts, .exportToParquetSilver, .dropSilverSchema,
   .goldCreateStarSchema, .createExpiringView, .getMedallionSummary]

/-- Exceptions the pipeline can raise. -/
inductive PyError where
  | fileNotFoundError
  | attributeError (missing : String)
deriving DecidableEq

/-- Execution of `medallion_pipeline` (run_etl_pipeline.py lines 64-158),
abstracted over whether the input CSV exists.  `bronze_ingest_csv` raises
`FileNotFoundError` when it does not (duckdb_store.py line 104).  The call
`store.export_to_parquet("bronze.rent_contracts", ...)` (line 98) resolves
the attribute on `DuckDBStore`; a name that is not among the class's
methods raises `AttributeError`.  The remaining statements (drop bronze,
clean silver, the second `export_to_parquet` call at line 115, drop silver,
gold build, view, summary) follow; `.ok ()` stands for returning the
results dictionary. -/
def medallion_pipeline (csvExists : Bool) : Except PyError Unit :=
  if csvExists = false then
    .error .fileNotFoundError
  else if (duckDBStoreMethods.contains "export_to_parquet") = false then
    .error (.attributeError "export_to_parquet")
  else if (duckDBStoreMethods.contains "export_to_parquet") = false then
    .error (.attributeError "export_to_parquet")
  else
    .ok ()

/-- Outcome of `publish_artifacts_to_github` (run_etl_pipeline.py lines
162-207). -/
inductive PublishOutcome where
  | skippedNoToken
  | noFilesToPublish
  | published (files : List String)
deriving DecidableEq

/-- `publish_artifacts_to_github` (run_etl_pipeline.py lines 162-207):
with no `GH_TOKEN` in the environment it logs a warning and returns
(skipping publication); otherwise it appends the release-notes file when
it exists, keeps only existing files, returns with an error log when none
exist, and else publishes the existing files.  A file is modelled as its
name paired with whether it exists on disk. -/
def publish_artifacts_to_github (ghToken : Option String)
    (files : List (String × Bool)) (releaseNotes : Option (String × Bool)) :
    PublishOutcome :=
  match ghToken with
  | none => .skippedNoToken
  | some _ =>
      let allFiles := files ++
        (match releaseNotes with
         | some rn => if rn.2 then [rn] else []
         | none => [])
      let existing := allFiles.filter fun f => f.2
      if existing.isEmpty then .noFilesToPublish
      else .published (existing.map fun f => f.1)

/-- Outcome of `main` (run_etl_pipeline.py lines 210-270). -/
inductive MainOutcome where
  | configErrorNoUrl
  | raisedFromMedallion
  | completedWith (pub : Option PublishOutcome)
deriving DecidableEq

/-- The artifact list `main` passes to the publish phase: the database file
and the silver parquet (run_etl_pipeline.py lines 247-250); modelled as
existing on disk. -/
def mainArtifacts : List (String × Bool) :=
  [("rental_data.db", true), ("rent_contracts_silver.parquet", true)]

/-- `main` (run_etl_pipeline.py lines 210-270): with `DLD_URL` unset it
logs an error and returns before any download or processing.  Otherwise
phase 1 downloads the CSV (after which the file exists), phase 2 runs
`medallion_pipeline` on it — whose exception, if any, is logged and
re-raised — and only then, when `publish_to_github` is set, is
`publish_artifacts_to_github` (and with it any `GH_TOKEN` handling)
reached. -/
def main_run (dldUrl ghToken : Option String) (publishToGithub : Bool) :
    MainOutcome :=
  match dldUrl with
  | none => .configErrorNoUrl
  | some _ =>
      match medallion_pipeline true with
      | .error _ => .raisedFromMedallion
      | .ok _ =>
          if publishToGithub then
            .completedWith (some (publish_artifacts_to_github ghToken
              mainArtifacts (some ("RELEASE_NOTES.md", true))))
          else .completedWith none

/-- The gold layer of a store: each of the seven gold tables either absent
or present with its rows. -/
structure Gold where
  dim_date : Option (List DimDateRow)
  dim_contract_type : Option (List (Nat × DimContractTypeTuple))
  dim_property : Option (List (Nat × DimPropertyTuple))
  dim_project : Option (List (Nat × DimProjectTuple))
  dim_location : Option (List (Nat × DimLocationTuple))
  dim_tenant : Option (List (Nat × DimTenantTuple))
  fact_rent_contract : Option (List (Nat × FactBody))
deriving DecidableEq

/-- The row-count dictionary returned by `gold_create_star_schema`. -/
structure GoldCounts where
  dim_date : Nat
  dim_contract_type : Nat
  dim_property : Nat
  dim_project : Nat
  dim_location : Nat
  dim_tenant : Nat
  fact_rent_contract : Nat
deriving DecidableEq

/-- `gold_create_star_schema` (duckdb_store.py lines 265-311) as a
transformer of the gold layer: when `table_exists("gold.fact_rent_contract")`
holds the build is skipped and the seven existing tables' row counts are
read back (`get_row_count` raises when one of the other six is missing);
otherwise the six dimensions are built, then the fact table, and the new
tables are written (the index creation of `_gold_create_indexes` does not
change any table's rows).  The result pairs the resulting gold layer with
the returned counts. -/
def gold_create_star_schema (silver : List SilverRow) (g : Gold) :
    Except String (Gold × GoldCounts) :=
  if g.fact_rent_contract.isSome then
    match g.dim_date, g.dim_contract_type, g.dim_property, g.dim_project,
        g.dim_location, g.dim_tenant, g.fact_rent_contract with
    | some dd, some dct, some dp, some dprj, some dl, some dt, some f =>
        .ok (g, ⟨dd.length, dct.length, dp.length, dprj.length, dl.length,
                 dt.length, f.length⟩)
    | _, _, _, _, _, _, _ => .error "Catalog Error: table does not exist"
  else
    let dd := dim_date silver
    let dct := dim_contract_type silver
    let dp := dim_property silver
    let dprj := dim_project silver
    let dl := dim_location silver
    let dt := dim_tenant silver
    let f := fact_rent_contract silver
    .ok (⟨some dd, some dct, some dp, some dprj, some dl, some dt, some f⟩,
         ⟨dd.length, dct.length, dp.length, dprj.length, dl.length,
          dt.length, f.length⟩)

/-- Two cleaned rows sharing one contract registration type (id 1) under
two different contract ids; every other nullable column NULL. -/
def exFan : List SilverRow :=
  [{ blankRow with contract_id := some 1, contract_reg_type_id := some 1 },
   { blankRow with contract_id := some 2, contract_reg_type_id := some 1 }]

/-- One cleaned row with every nullable column NULL (in particular a NULL
`area_id`). -/
def exNull : List SilverRow := [blankRow]

/-- One cleaned row spanning the two days 2024-01-01 and 2024-01-02 (day
numbers 19723 and 19724). -/
def exTwoDays : List SilverRow :=
  [{ blankRow with contract_start_date := some 19723,
                   contract_end_date := some 19724,
                   has_date_issues := false }]

/-- One cleaned row whose end date (day 50) precedes its start date (day
100), both non-NULL. -/
def exReversed : List SilverRow :=
  [{ blankRow with contract_start_date := some 100,
                   contract_end_date := some 50,
                   has_date_issues := false }]

/-- One cleaned row spanning days 0..2 (1970-01-01 to 1970-01-03). -/
def exSpan : List SilverRow :=
  [{ blankRow with contract_start_date := some 0,
                   contract_end_date := some 2,
                   has_date_issues := false }]

/-- One cleaned row for a contract running 2022-01-01 (day 18993) to
2024-01-01 (day 19723): exactly two full years. -/
def exTwoYears : List SilverRow :=
  [{ blankRow with contract_start_date := some 18993,
                   contract_end_date := some 19723,
                   has_date_issues := false }]

/-- A gold layer in which all seven tables exist (each shown with a small
concrete content), as left behind by an earlier build. -/
def exGold : Gold where
  dim_date := some [mkDimDateRow 0]
  dim_contract_type := some []
  dim_property := some []
  dim_project := some []
  dim_location := some [(1, ⟨none, none, none, none, none, none, none, none, none, none⟩)]
  dim_tenant := some []
  fact_rent_contract := some [(1, ⟨none, none, none, none, none, none, none,
    none, none, none, none, none, none, none, none, none, true, true⟩)]

/-- The first components of a 1-based enumeration are `1, 2, ..., length`. -/
theorem map_fst_enumFrom {α : Type} (n : Nat) (l : List α) :
    (List.enumFrom n l).map Prod.fst = List.range' n l.length := by
  induction l generalizing n with
  | nil => rfl
  | cons a t ih =>
      simp [List.enumFrom, List.range', ih]

/-- Surrogate keys assigned by `buildDim` are exactly `1..N` for `N` the
number of distinct projected tuples that pass the dimension's filter. -/
theorem map_fst_buildDim {β : Type} [DecidableEq β] (keep : SilverRow → Bool)
    (proj : SilverRow → β) (le : β → β → Bool) (rows : List SilverRow) :
    (buildDim keep proj le rows).map Prod.fst =
      List.range' 1 ((rows.filter keep).map proj).dedup.length := by
  unfold buildDim
  rw [map_fst_enumFrom, List.length_insertionSort]

/-- The second component of an enumerated pair is a member of the
underlying list. -/
theorem snd_mem_of_mem_enumFrom {α : Type} {n : Nat} {l : List α}
    {p : Nat × α} (h : p ∈ List.enumFrom n l) : p.2 ∈ l := by
  induction l generalizing n with
  | nil => cases h
  | cons a t ih =>
      rw [List.enumFrom_cons] at h
      rcases List.mem_cons.mp h with h1 | h1
      · rw [h1]; exact List.mem_cons_self _ _
      · exact List.mem_cons_of_mem _ (ih h1)

/-- Every tuple in a `buildDim` dimension comes from a silver row accepted
by the dimension's filter. -/
theorem mem_buildDim {β : Type} [DecidableEq β] {keep : SilverRow → Bool}
    {proj : SilverRow → β} {le : β → β → Bool} {rows : List SilverRow}
    {p : Nat × β} (hp : p ∈ buildDim keep proj le rows) :
    ∃ r ∈ rows, keep r = true ∧ p.2 = proj r := by
  unfold buildDim at hp
  have h2 := snd_mem_of_mem_enumFrom hp
  rw [List.mem_insertionSort, List.mem_dedup] at h2
  rcases List.mem_map.mp h2 with ⟨r, hr, hpr⟩
  rcases List.mem_filter.mp hr with ⟨hrm, hrk⟩
  exact ⟨r, hrm, hrk, hpr.symm⟩

/-- Projecting the day numbers out of a generated date-dimension row. -/
@[simp] theorem mkDimDateRow_full_date (z : Int) : (mkDimDateRow z).full_date = z := rfl

/-- A `buildDim` dimension has one row per distinct retained tuple. -/
theorem length_buildDim {β : Type} [DecidableEq β] (keep : SilverRow → Bool)
    (proj : SilverRow → β) (le : β → β → Bool) (rows : List SilverRow) :
    (buildDim keep proj le rows).length =
      ((rows.filter keep).map proj).dedup.length := by
  unfold buildDim
  rw [List.enumFrom_length, List.length_insertionSort]

/-- The surrogate keys of a `buildDim` dimension are exactly the contiguous
run `1, 2, ..., rowCount`. -/
theorem contiguous_buildDim {β : Type} [DecidableEq β] (keep : SilverRow → Bool)
    (proj : SilverRow → β) (le : β → β → Bool) (rows : List SilverRow) :
    (buildDim keep proj le rows).map Prod.fst =
      List.range' 1 (buildDim keep proj le rows).length := by
  rw [map_fst_buildDim, length_buildDim]

/-- Occurrences of `d` in the arithmetic progression
`mn, mn + 1, ..., mn + k - 1`. -/
theorem count_range_add (k : Nat) (mn d : Int) :
    ((List.range k).map fun n : Nat => mn + (n : Int)).count d =
      if mn ≤ d ∧ d < mn + k then 1 else 0 := by
  induction k with
  | zero =>
      simp only [List.range_zero, List.map_nil, List.count_nil]
      rw [if_neg]
      push_cast
      omega
  | succ k ih =>
      rw [List.range_succ, List.map_append, List.count_append, ih]
      simp only [List.map_cons, List.map_nil, List.count_cons, List.count_nil,
        beq_iff_eq]
      push_cast
      split_ifs <;> omega

/-- C1: the claim says the fact table always has exactly as many rows as
the cleaned table.  The code violates it: `exFan` has two cleaned rows
sharing contract registration type 1 under two contract ids, the
contract-type dimension (whose `SELECT DISTINCT` includes `contract_id`)
then holds two rows for that one registration type, and the fact table's
left join on `contract_reg_type_id` fans each cleaned row out to two fact
rows — four fact rows from two cleaned rows. -/
theorem c1_fact_fanout :
    exFan.length = 2
  ∧ (dim_contract_type exFan).length = 2
  ∧ (fact_rent_contract exFan).length = 4 :=
  ⟨rfl, by decide, by decide⟩

/-- C2 counterexample: the claim says every dimension's surrogate keys run
`1..N` for `N` the number of distinct non-null natural-key values, natural
keys being unique per dimension row.  On `exFan` (one distinct
`contract_reg_type_id`, namely 1) `dim_contract_type` has keys `[1, 2]`
and carries natural key `some 1` on both rows; and the date dimension's
`date_key` is a YYYYMMDD integer, not a contiguous sequence. -/
theorem c2_counterexample :
    (dim_contract_type exFan).map Prod.fst = [1, 2]
  ∧ ((exFan.filterMap fun r => r.contract_reg_type_id).dedup).length = 1
  ∧ ((dim_contract_type exFan).map fun p => (p.2).contract_reg_type_id) = [some 1, some 1]
  ∧ (dim_date exTwoDays).map (fun r => r.date_key) = [20240101, 20240102] :=
  ⟨by decide, by decide, by decide, by decide⟩

/-- C2 amended: for each of the five attribute dimensions the surrogate
keys are exactly the contiguous run `1..N` with no gaps or repeats, where
`N` is the dimension's row count — the number of distinct retained
attribute tuples (after the dimension's null filter), not the number of
distinct natural-key values. -/
theorem c2_amended (silver : List SilverRow) :
    (dim_contract_type silver).map Prod.fst =
      List.range' 1 (dim_contract_type silver).length
  ∧ (dim_property silver).map Prod.fst =
      List.range' 1 (dim_property silver).length
  ∧ (dim_project silver).map Prod.fst =
      List.range' 1 (dim_project silver).length
  ∧ (dim_location silver).map Prod.fst =
      List.range' 1 (dim_location silver).length
  ∧ (dim_tenant silver).map Prod.fst =
      List.range' 1 (dim_tenant silver).length :=
  ⟨contiguous_buildDim _ _ _ _, contiguous_buildDim _ _ _ _,
   contiguous_buildDim _ _ _ _, contiguous_buildDim _ _ _ _,
   contiguous_buildDim _ _ _ _⟩

/-- C3 counterexample: the claim says every dimension — the location
dimension included — excludes cleaned rows with a null natural key.  But
`_gold_create_dim_location` has no `WHERE area_id IS NOT NULL`, so the
one all-null cleaned row of `exNull` yields a `dim_location` row whose
natural key `area_id` is NULL. -/
theorem c3_location_counterexample :
    (dim_location exNull).map (fun p => (p.2).area_id) = [none]
  ∧ (dim_location exNull).length = 1 :=
  ⟨by decide, by decide⟩

/-- C3 amended: the contract-type, property, project and tenant dimensions
do exclude rows with a null natural key; the location dimension has no
such filter and retains null-keyed tuples; and a cleaned row whose
`area_id` is null still gets a single NULL `location_key` in the fact
table, because SQL equality never matches on NULL. -/
theorem c3_amended (silver : List SilverRow) (rc : SilverRow)
    (hk : rc.area_id = none) :
    ((dim_contract_type silver).all fun p => (p.2).contract_reg_type_id.isSome) = true
  ∧ ((dim_property silver).all fun p => (p.2).ejari_bus_property_type_id.isSome) = true
  ∧ ((dim_project silver).all fun p => (p.2).project_number.isSome) = true
  ∧ ((dim_tenant silver).all fun p => (p.2).tenant_type_id.isSome) = true
  ∧ locationKeysFor silver rc = [none] := by
  refine ⟨?_, ?_, ?_, ?_, ?_⟩
  · rw [List.all_eq_true]
    intro p hp
    obtain ⟨r, _, hkr, he⟩ := mem_buildDim hp
    rw [he]
    exact hkr
  · rw [List.all_eq_true]
    intro p hp
    obtain ⟨r, _, hkr, he⟩ := mem_buildDim hp
    rw [he]
    exact hkr
  · rw [List.all_eq_true]
    intro p hp
    obtain ⟨r, _, hkr, he⟩ := mem_buildDim hp
    rw [he]
    exact hkr
  · rw [List.all_eq_true]
    intro p hp
    obtain ⟨r, _, hkr, he⟩ := mem_buildDim hp
    rw [he]
    exact hkr
  · have hfilter : (dim_location silver).filter
        (fun d => sqlEq rc.area_id d.2.area_id) = [] := by
      rw [List.filter_eq_nil_iff]
      intro d hd
      rw [hk]
      simp [sqlEq]
    unfold locationKeysFor leftKeys
    rw [hfilter]
    rfl

/-- C3 witness: the amended statement evaluated on the one-null-row table
`exNull` with the all-null row itself as the cleaned row in question. -/
theorem c3_witness :
    ((dim_contract_type exNull).all fun p => (p.2).contract_reg_type_id.isSome) = true
  ∧ ((dim_property exNull).all fun p => (p.2).ejari_bus_property_type_id.isSome) = true
  ∧ ((dim_project exNull).all fun p => (p.2).project_number.isSome) = true
  ∧ ((dim_tenant exNull).all fun p => (p.2).tenant_type_id.isSome) = true
  ∧ locationKeysFor exNull blankRow = [none] :=
  c3_amended exNull blankRow rfl

/-- C4 counterexample: the claim says the date dimension always has
exactly `(max end − min start) + 1` rows once some row has both dates.
`exReversed` has one such row with end day 50 before start day 100; the
formula gives the impossible −49 while `generate_series` produces an
empty calendar, so the date dimension has 0 rows. -/
theorem c4_counterexample :
    minStartDate exReversed = some 100
  ∧ maxEndDate exReversed = some 50
  ∧ dim_date exReversed = []
  ∧ ((50 : Int) - 100 + 1 = -49) :=
  ⟨rfl, rfl, by decide, by decide⟩

/-- C4 amended: whenever some cleaned row has both dates non-null and the
minimum start day `mn` does not exceed the maximum end day `mx`, the date
dimension has exactly `(mx − mn) + 1` rows and each calendar day `d`
appears exactly once if it lies in the inclusive span and never
otherwise. -/
theorem c4_amended (silver : List SilverRow) (mn mx d : Int)
    (hmn : minStartDate silver = some mn) (hmx : maxEndDate silver = some mx)
    (hle : mn ≤ mx) :
    (dim_date silver).length = (mx - mn + 1).toNat
  ∧ ((dim_date silver).map fun r => r.full_date).count d =
      if mn ≤ d ∧ d ≤ mx then 1 else 0 := by
  have hd : dim_date silver =
      (List.range (mx - mn + 1).toNat).map fun n : Nat => mkDimDateRow (mn + (n : Int)) := by
    unfold dim_date
    rw [hmn, hmx]
  have hcast : (((mx - mn + 1).toNat : Int)) = mx - mn + 1 :=
    Int.toNat_of_nonneg (by omega)
  constructor
  · rw [hd, List.length_map, List.length_range]
  · rw [hd, List.map_map]
    have hmap : ((fun r : DimDateRow => r.full_date) ∘
        fun n : Nat => mkDimDateRow (mn + (n : Int))) =
        fun n : Nat => mn + (n : Int) := by
      funext n
      rfl
    rw [hmap, count_range_add, hcast]
    exact if_congr (by omega) rfl rfl

/-- C4 witness: the amended statement evaluated on `exSpan` (one row
spanning days 0..2) at the in-span day 1. -/
theorem c4_witness :
    (dim_date exSpan).length = ((2 : Int) - 0 + 1).toNat
  ∧ ((dim_date exSpan).map fun r => r.full_date).count 1 =
      if (0 : Int) ≤ 1 ∧ (1 : Int) ≤ 2 then 1 else 0 :=
  c4_amended exSpan 0 2 1 rfl rfl (by decide)

/-- C5: the claim says `contract_duration_months` is the whole-month span
(two full years giving 24) when both dates are present, null otherwise.
The null half holds, but the code computes `EXTRACT(MONTH FROM AGE(end,
start))`, the months field of the normalized interval — the whole-month
span modulo 12.  For the contract of `exTwoYears`, 2022-01-01 (day 18993)
to 2024-01-01 (day 19723), the whole-month span is 24 yet the fact row
carries 0. -/
theorem c5_duration_bug :
    ((fact_rent_contract exTwoYears).map fun p => (p.2).contract_duration_months) = [some 0]
  ∧ civilFromDays 18993 = ⟨2022, 1, 1⟩
  ∧ civilFromDays 19723 = ⟨2024, 1, 1⟩
  ∧ specWholeMonthSpan ⟨2022, 1, 1⟩ ⟨2024, 1, 1⟩ = 24
  ∧ contractDurationMonths none (some 19723) = none
  ∧ contractDurationMonths (some 18993) none = none :=
  ⟨by decide, by decide, by decide, by decide, rfl, rfl⟩

/-- C6: the claim says no pipeline step modifies or removes the cleaned
silver table between the end of cleaning and the end of modeling.  In the
program order of `medallion_pipeline`, the statement `DROP SCHEMA IF
EXISTS silver CASCADE` (run_etl_pipeline.py line 119) sits strictly
between `silver_clean_rent_contracts` and `gold_create_star_schema` —
which reads `silver.rent_contracts` — so the cleaned table is removed
before modeling starts. -/
theorem c6_drop_silver_before_gold :
    medallionSteps.indexOf MedallionStep.silverCleanRentContracts <
      medallionSteps.indexOf MedallionStep.dropSilverSchema
  ∧ medallionSteps.indexOf MedallionStep.dropSilverSchema <
      medallionSteps.indexOf MedallionStep.goldCreateStarSchema :=
  ⟨by decide, by decide⟩

/-- C7: every invocation of `medallion_pipeline` raises before returning
its results dictionary: with the CSV absent, `bronze_ingest_csv` raises
`FileNotFoundError`; with it present, the attribute lookup
`store.export_to_parquet` fails because `DuckDBStore` defines no such
method — only `export_silver_to_parquet` exists. -/
theorem c7_pipeline_always_raises :
    (∀ csvExists : Bool, ∃ e, medallion_pipeline csvExists = .error e)
  ∧ duckDBStoreMethods.contains "export_to_parquet" = false
  ∧ duckDBStoreMethods.contains "export_silver_to_parquet" = true := by
  refine ⟨?_, by decide, by decide⟩
  intro b
  cases b
  · exact ⟨.fileNotFoundError, rfl⟩
  · exact ⟨.attributeError "export_to_parquet", rfl⟩

/-- C8: the claim says `_cleaned_timestamp` is stamped with the wall-clock
time of the cleaning pass.  The stored value never equals the pass's time:
the SQL is not an f-string, so the column holds the constant literal
placeholder text — which is, trivially, the same for every row and every
invocation. -/
theorem c8_timestamp_not_wall_clock :
    silver_cleaned_timestamp "2026-10-12T08:00:00" ≠ "2026-10-12T08:00:00"
  ∧ silver_cleaned_timestamp "2026-10-12T08:00:00" =
      "\x7bdatetime.now().isoformat()\x7d"
  ∧ (∀ t u : String, silver_cleaned_timestamp t = silver_cleaned_timestamp u) :=
  ⟨by decide, rfl, fun _ _ => rfl⟩

/-- C9: when `gold.fact_rent_contract` already exists, the star-schema
build is skipped: with all seven gold tables present, the call returns
the existing tables' row counts and the gold layer itself unchanged — no
dimension or fact table is recreated (the result state is the input
state). -/
theorem c9_skip_preserves (silver : List SilverRow) (g : Gold)
    (dd : List DimDateRow) (dct : List (Nat × DimContractTypeTuple))
    (dp : List (Nat × DimPropertyTuple)) (dprj : List (Nat × DimProjectTuple))
    (dl : List (Nat × DimLocationTuple)) (dt : List (Nat × DimTenantTuple))
    (f : List (Nat × FactBody))
    (h1 : g.dim_date = some dd) (h2 : g.dim_contract_type = some dct)
    (h3 : g.dim_property = some dp) (h4 : g.dim_project = some dprj)
    (h5 : g.dim_location = some dl) (h6 : g.dim_tenant = some dt)
    (h7 : g.fact_rent_contract = some f) :
    gold_create_star_schema silver g =
      .ok (g, ⟨dd.length, dct.length, dp.length, dprj.length, dl.length,
               dt.length, f.length⟩) := by
  unfold gold_create_star_schema
  rw [h1, h2, h3, h4, h5, h6, h7]
  rfl

/-- C9 witness: the skip on a concrete pre-existing gold layer. -/
theorem c9_witness :
    gold_create_star_schema [] exGold = .ok (exGold, ⟨1, 0, 0, 0, 1, 0, 1⟩) :=
  c9_skip_preserves [] exGold _ _ _ _ _ _ _ rfl rfl rfl rfl rfl rfl rfl

/-- C10 counterexample: the claim says a missing `GH_TOKEN` is a fatal
configuration error that makes the pipeline exit before touching any
data.  In the code a missing token merely makes
`publish_artifacts_to_github` log a warning and skip publication, and in
`main` the token is not consulted until after the download and medallion
phases: with `DLD_URL` set and `GH_TOKEN` absent the run is not stopped by
a configuration error. -/
theorem c10_counterexample :
    publish_artifacts_to_github none mainArtifacts (some ("RELEASE_NOTES.md", true)) =
      .skippedNoToken
  ∧ main_run (some "https://www.dubaipulse.gov.ae") none true ≠ .configErrorNoUrl :=
  ⟨rfl, by decide⟩

/-- C10 amended: only the source URL half of the claim holds.  A missing
`DLD_URL` makes `main` log an error and return before any download or
processing; a missing `GH_TOKEN` is not fatal — `publish_artifacts_to_github`
skips publication with a warning, and `main` reaches that check only
after the data phases (which, as built, raise from the medallion
pipeline first). -/
theorem c10_amended :
    (∀ (g : Option String) (p : Bool), main_run none g p = .configErrorNoUrl)
  ∧ (∀ (files : List (String × Bool)) (notes : Option (String × Bool)),
        publish_artifacts_to_github none files notes = .skippedNoToken)
  ∧ (∀ p : Bool, main_run (some "https://www.dubaipulse.gov.ae") none p =
        .raisedFromMedallion) :=
  ⟨fun _ _ => rfl, fun _ _ => rfl, fun _ => rfl⟩
